import Mathlib

/-!
Verification of the parameter-resolution functions in
`google_cloud_pipeline_components/_implementation/llm/function_based.py`.

Each Python function is shallowly embedded as an executable Lean definition.
Python `raise ValueError(msg)` is modelled as `Except.error msg`; optional
arguments are `Option` values; Python truthiness of optional strings and
integers is modelled explicitly (`pyTruthyStr`, `pyTruthyInt`), since the
source branches on truthiness (`x or y`, `any([...])`), not on argument
presence.  Python `str.lower` is modelled on ASCII letters, which covers
every string that occurs in the registries and claims.
-/

/-- Decidable equality for `Except`, needed to evaluate resolver results. -/
instance {e a : Type} [DecidableEq e] [DecidableEq a] : DecidableEq (Except e a) := fun x y =>
  match x, y with
  | .ok u, .ok v =>
      if h : u = v then isTrue (by rw [h]) else isFalse (by intro hh; injection hh; contradiction)
  | .error u, .error v =>
      if h : u = v then isTrue (by rw [h]) else isFalse (by intro hh; injection hh; contradiction)
  | .ok _, .error _ => isFalse (by intro hh; injection hh)
  | .error _, .ok _ => isFalse (by intro hh; injection hh)

/-- ASCII lower-casing of one character, as Python `str.lower` acts on ASCII. -/
def pyLowerChar (c : Char) : Char :=
  if 'A' ≤ c ∧ c ≤ 'Z' then Char.ofNat (c.toNat + 32) else c

/-- Python `s.lower()` restricted to ASCII case mapping. -/
def pyLower (s : String) : String := String.mk (s.toList.map pyLowerChar)

/-- Python `s.replace(CHAR_UNDERSCORE, CHAR_HYPHEN)`: for one-character patterns the
substring replacement is exactly a character map. -/
def pyReplaceUnderscore (s : String) : String :=
  String.mk (s.toList.map (fun c => if c == '_' then '-' else c))

/-- Truthiness of a Python `Optional[str]`: `None` and the empty string are falsy. -/
def pyTruthyStr : Option String → Bool
  | none => false
  | some s => !(s == "")

/-- Truthiness of a Python `Optional[int]`: `None` and `0` are falsy. -/
def pyTruthyInt : Option Int → Bool
  | none => false
  | some n => !(n == 0)

/-- Python `x or y` for an optional string: the value if truthy, else the default. -/
def pyOrElse (x : Option String) (y : String) : String :=
  if pyTruthyStr x then x.getD "" else y

/-- Whether `needle` is a leading block of `hay` (helper for substring search). -/
def headMatch : List Char → List Char → Bool
  | [], _ => true
  | _ :: _, [] => false
  | a :: as, b :: bs => a == b && headMatch as bs

/-- Python `needle in hay` on strings, as character lists. -/
def containsSub (needle : List Char) : List Char → Bool
  | [] => headMatch needle []
  | b :: bs => headMatch needle (b :: bs) || containsSub needle bs

/-- Code-point lexicographic order on character lists, as Python compares strings. -/
def charListLt : List Char → List Char → Bool
  | _, [] => false
  | [], _ :: _ => true
  | a :: as, b :: bs => Nat.blt a.toNat b.toNat || (a == b && charListLt as bs)

/-- Insert into an ascending list (helper for `pySorted`). -/
def insertStr (x : String) : List String → List String
  | [] => [x]
  | y :: ys => if charListLt y.toList x.toList then y :: insertStr x ys else x :: y :: ys

/-- Python `sorted` on a list of strings (insertion sort; ascending code-point order). -/
def pySorted : List String → List String
  | [] => []
  | x :: xs => insertStr x (pySorted xs)

/-- The ASCII single-quote character used by Python `repr` of strings. -/
def pyQuote : String := String.singleton (Char.ofNat 39)

/-- Python `repr` of a string without quotes or escapes inside (all registry
strings are of this form). -/
def pyStrRepr (s : String) : String := pyQuote ++ s ++ pyQuote

/-- Python `str` of a list of strings, e.g. as interpolated by an f-string. -/
def pyListRepr (xs : List String) : String :=
  "[" ++ String.intercalate ", " (xs.map pyStrRepr) ++ "]"

/-- Python `str` of a set of strings *given its iteration order* `xs`.  CPython
set iteration order is unspecified (string hashing is randomized per process),
so the order is a parameter, not a fixed list. -/
def pySetRepr (xs : List String) : String :=
  "\x7b" ++ String.intercalate ", " (xs.map pyStrRepr) ++ "\x7d"

/-- The `MachineSpec` named tuple: machine type, accelerator type and count. -/
structure MachineSpec where
  machine_type : String
  accelerator_type : String
  accelerator_count : Int
deriving DecidableEq

/-- `tpu_regions` from `resolve_machine_spec`. -/
def tpu_regions : List String := ["europe-west4"]

/-- `gpu_regions` from `resolve_machine_spec`. -/
def gpu_regions : List String := ["us-central1"]

/-- A list is a possible CPython iteration order of the set
`tpu_regions | gpu_regions` iff it is a permutation of the union's elements. -/
abbrev regionEnumOk (e : List String) : Prop := e.Perm (tpu_regions ++ gpu_regions)

/-- The error message `resolve_machine_spec` raises for an unsupported location,
with `e` the iteration order CPython happens to use for the set
`tpu_regions | gpu_regions` in the f-string. -/
def unsupportedLocationMsg (location : String) (e : List String) : String :=
  "Unsupported accelerator location " ++ location ++ ". Must be one of " ++ pySetRepr e ++ "."

/-- `resolve_machine_spec(location, use_test_spec)`.  The extra parameter `e`
is the unspecified set-iteration order used only in the error message. -/
def resolve_machine_spec (location : String) (use_test_spec : Bool)
    (e : List String) : Except String MachineSpec :=
  if use_test_spec then
    .ok ⟨"a2-highgpu-1g", "NVIDIA_TESLA_A100", 1⟩
  else if location ∈ tpu_regions then
    .ok ⟨"cloud-tpu", "TPU_V3", 64⟩
  else if location ∈ gpu_regions then
    .ok ⟨"a2-ultragpu-8g", "NVIDIA_A100_80GB", 8⟩
  else
    .error (unsupportedLocationMsg location e)

/-- Machine-type constant from `get_default_bulk_inference_machine_specs`. -/
def cloud_tpu : String := "cloud-tpu"

/-- Machine-type constant from `get_default_bulk_inference_machine_specs`. -/
def ultra_gpu_1g : String := "a2-ultragpu-1g"

/-- Machine-type constant from `get_default_bulk_inference_machine_specs`. -/
def ultra_gpu_2g : String := "a2-ultragpu-2g"

/-- Machine-type constant from `get_default_bulk_inference_machine_specs`. -/
def ultra_gpu_4g : String := "a2-ultragpu-4g"

/-- Machine-type constant from `get_default_bulk_inference_machine_specs`. -/
def ultra_gpu_8g : String := "a2-ultragpu-8g"

/-- Machine-type constant from `get_default_bulk_inference_machine_specs`. -/
def high_gpu_1g : String := "a2-highgpu-1g"

/-- Machine-type constant from `get_default_bulk_inference_machine_specs`. -/
def high_gpu_2g : String := "a2-highgpu-2g"

/-- Machine-type constant from `get_default_bulk_inference_machine_specs`. -/
def high_gpu_4g : String := "a2-highgpu-4g"

/-- Machine-type constant from `get_default_bulk_inference_machine_specs`. -/
def high_gpu_8g : String := "a2-highgpu-8g"

/-- Machine-type constant from `get_default_bulk_inference_machine_specs`. -/
def mega_gpu_16g : String := "a2-megagpu-16g"

/-- Accelerator-type constant `tpu_v2`. -/
def tpu_v2 : String := "TPU_V2"

/-- Accelerator-type constant `tpu_v3`. -/
def tpu_v3 : String := "TPU_V3"

/-- Accelerator-type constant `nvidia_a100_40g`. -/
def nvidia_a100_40g : String := "NVIDIA_TESLA_A100"

/-- Accelerator-type constant `nvidia_a100_80g`. -/
def nvidia_a100_80g : String := "NVIDIA_A100_80GB"

/-- `tpu_accelerator_types` frozenset (as a list; only membership and the
sorted rendering of the union are ever used, so the order is immaterial). -/
def tpu_accelerator_types : List String := [tpu_v2, tpu_v3]

/-- `gpu_accelerator_types` frozenset. -/
def gpu_accelerator_types : List String := [nvidia_a100_40g, nvidia_a100_80g]

/-- `valid_accelerator_types = gpu_accelerator_types | tpu_accelerator_types`.
Only `sorted(valid_accelerator_types)` reaches any output, so representing the
set by this list loses nothing. -/
def valid_accelerator_types : List String := gpu_accelerator_types ++ tpu_accelerator_types

/-- The nested helper `_get_machine_type(accelerator_type, accelerator_count)`
of `get_default_bulk_inference_machine_specs`, branch for branch. -/
def _get_machine_type (accelerator_type : String) (accelerator_count : Int) :
    Except String String :=
  if accelerator_count < 1 then
    .error "accelerator_count must be at least 1."
  else if accelerator_type ∈ tpu_accelerator_types then
    .ok cloud_tpu
  else if accelerator_type = nvidia_a100_40g then
    if accelerator_count = 1 then .ok high_gpu_1g
    else if accelerator_count = 2 then .ok high_gpu_2g
    else if accelerator_count ≤ 4 then .ok high_gpu_4g
    else if accelerator_count ≤ 8 then .ok high_gpu_8g
    else if accelerator_count ≤ 16 then .ok mega_gpu_16g
    else .error ("Too many " ++ accelerator_type ++ " requested. Must be <= 16.")
  else if accelerator_type = nvidia_a100_80g then
    if accelerator_count = 1 then .ok ultra_gpu_1g
    else if accelerator_count = 2 then .ok ultra_gpu_2g
    else if accelerator_count ≤ 4 then .ok ultra_gpu_4g
    else if accelerator_count ≤ 8 then .ok ultra_gpu_8g
    else .error ("Too many " ++ accelerator_type ++ " requested. Must be <= 8.")
  else
    .error ("accelerator_type_override must be one of " ++
      pyListRepr (pySorted valid_accelerator_types) ++ ".")

/-- Base-model constant `palm_tiny`. -/
def palm_tiny : String := "PALM_TINY"

/-- Base-model constant `gecko`. -/
def gecko : String := "GECKO"

/-- Base-model constant `otter`. -/
def otter : String := "OTTER"

/-- Base-model constant `bison`. -/
def bison : String := "BISON"

/-- Base-model constant `elephant`. -/
def elephant : String := "ELEPHANT"

/-- Base-model constant `t5_small`. -/
def t5_small : String := "T5_SMALL"

/-- Base-model constant `t5_large`. -/
def t5_large : String := "T5_LARGE"

/-- Base-model constant `t5_xl`. -/
def t5_xl : String := "T5_XL"

/-- Base-model constant `t5_xxl`. -/
def t5_xxl : String := "T5_XXL"

/-- `accepted_reference_models` frozenset (only membership and the sorted
rendering are used, so a list representation is faithful). -/
def accepted_reference_models : List String :=
  [palm_tiny, gecko, otter, bison, elephant, t5_small, t5_large, t5_xl, t5_xxl]

/-- `reference_model_to_model_specs_gpu`: the per-model GPU default specs,
entry for entry (fields in declaration order machine_type, accelerator_type,
accelerator_count). -/
def reference_model_to_model_specs_gpu : List (String × MachineSpec) :=
  [(palm_tiny, ⟨high_gpu_1g, nvidia_a100_40g, 1⟩),
   (gecko, ⟨high_gpu_1g, nvidia_a100_40g, 1⟩),
   (otter, ⟨high_gpu_2g, nvidia_a100_40g, 2⟩),
   (bison, ⟨high_gpu_8g, nvidia_a100_40g, 8⟩),
   (elephant, ⟨high_gpu_8g, nvidia_a100_40g, 8⟩),
   (t5_small, ⟨high_gpu_1g, nvidia_a100_40g, 1⟩),
   (t5_large, ⟨high_gpu_1g, nvidia_a100_40g, 1⟩),
   (t5_xl, ⟨high_gpu_1g, nvidia_a100_40g, 1⟩),
   (t5_xxl, ⟨high_gpu_2g, nvidia_a100_40g, 2⟩)]

/-- `get_default_bulk_inference_machine_specs`.  Python `any([a, b])` and
`all([a, b])` on the two optional overrides are truthiness tests, embedded via
`pyTruthyStr` / `pyTruthyInt`.  The dict index into the GPU defaults table is
total on accepted models (`gpu_defaults_cover` below), so `getD` never falls
back to its dummy. -/
def get_default_bulk_inference_machine_specs (large_model_reference : String)
    (use_gpu_defaults : Bool) (accelerator_type_override : Option String)
    (accelerator_count_override : Option Int) : Except String MachineSpec :=
  if large_model_reference ∉ accepted_reference_models then
    .error ("large_model_reference must be one of " ++
      pyListRepr (pySorted accepted_reference_models) ++ ".")
  else
    let default_machine_spec : MachineSpec :=
      if use_gpu_defaults then
        (reference_model_to_model_specs_gpu.lookup large_model_reference).getD ⟨"", "", 0⟩
      else
        ⟨cloud_tpu, tpu_v3, 32⟩
    if pyTruthyStr accelerator_type_override || pyTruthyInt accelerator_count_override then
      if pyTruthyStr accelerator_type_override && pyTruthyInt accelerator_count_override then
        let accelerator_type := accelerator_type_override.getD ""
        let accelerator_count := accelerator_count_override.getD 0
        match _get_machine_type accelerator_type accelerator_count with
        | .error msg => .error msg
        | .ok mt => .ok ⟨mt, accelerator_type, accelerator_count⟩
      else
        .error "Accelerator type and count must both be set."
    else
      match _get_machine_type default_machine_spec.accelerator_type
          default_machine_spec.accelerator_count with
      | .error msg => .error msg
      | .ok mt => .ok ⟨mt, default_machine_spec.accelerator_type,
          default_machine_spec.accelerator_count⟩

/-- `cpu_only_images` set from `resolve_image_uri`. -/
def cpu_only_images : List String := ["text_importer", "text_comparison_importer"]

/-- `backup_images` set from `resolve_image_uri`. -/
def backup_images : List String :=
  ["sft", "reward_model", "reinforcer", "infer", "text_importer", "text_comparison_importer"]

/-- `resolve_image_uri`, branch for branch (the Python `+= CHARS_BACKUP`
reassignment is the shadowing `let`). -/
def resolve_image_uri (image_name project location artifact_registry : String)
    ( image_name_prefix : String) (tag accelerator_type : String)
    (accelerator_count : Int) : String :=
  let accelerator_postfix :=
    if image_name ∈ cpu_only_images then ""
    else if accelerator_type = "TPU_V3" then "_tpu"
    else if accelerator_type = "NVIDIA_A100_80GB" ∧ accelerator_count = 8 then "_gpu_test"
    else "_gpu"
  let accelerator_postfix :=
    if image_name ∈ backup_images ∧ accelerator_postfix ≠ "_gpu_test" then
      accelerator_postfix ++ "_backup"
    else accelerator_postfix
  location ++ "-docker.pkg.dev/" ++ project ++ "/" ++ artifact_registry ++ "/" ++
    image_name_prefix ++ image_name ++ accelerator_postfix ++ ":" ++ tag

/-- Modelled from the spec sentences for the image suffix (priority order
CPU-only, TPU, GPU-test, GPU, then conditional `_backup`), to be compared with
the suffix the code computes. -/
def suffix_per_spec (image_name accelerator_type : String)
    (accelerator_count : Int) : String :=
  let base :=
    if image_name ∈ cpu_only_images then ""
    else if accelerator_type = "TPU_V3" then "_tpu"
    else if accelerator_type = "NVIDIA_A100_80GB" ∧ accelerator_count = 8 then "_gpu_test"
    else "_gpu"
  if image_name ∈ backup_images ∧ base ≠ "_gpu_test" then base ++ "_backup" else base

/-- The `ReferenceModelMetadata` named tuple of
`resolve_reference_model_metadata`. -/
structure ReferenceModelMetadata where
  large_model_reference : String
  reference_model_path : String
  reward_model_reference : String
  reward_model_path : String
  is_supported : Bool
deriving DecidableEq

/-- The `Outputs` named tuple of `resolve_reference_model_metadata` (the
metadata with the `is_supported` flag stripped). -/
structure ReferenceModelOutputs where
  large_model_reference : String
  reference_model_path : String
  reward_model_reference : String
  reward_model_path : String
deriving DecidableEq

/-- The `reference_models` registry, entry for entry in source order (a Python
dict preserves insertion order; lookup is exact-key association). -/
def reference_models : List (String × ReferenceModelMetadata) :=
  [("t5-small", ⟨"T5_SMALL", "gs://t5-data/pretrained_models/t5x/flan_t5_small/",
     "T5_SMALL", "gs://t5-data/pretrained_models/t5x/t5_1_1_small", true⟩),
   ("t5-large", ⟨"T5_LARGE", "gs://t5-data/pretrained_models/t5x/flan_t5_large/",
     "T5_LARGE", "gs://t5-data/pretrained_models/t5x/t5_1_1_large", true⟩),
   ("t5-xl", ⟨"T5_XL", "gs://t5-data/pretrained_models/t5x/flan_t5_xl/",
     "T5_XL", "gs://t5-data/pretrained_models/t5x/t5_1_1_xl", true⟩),
   ("t5-xxl", ⟨"T5_XXL", "gs://t5-data/pretrained_models/t5x/flan_t5_xxl/",
     "T5_XL", "gs://t5-data/pretrained_models/t5x/t5_1_1_xl", true⟩),
   ("palm-tiny", ⟨"PALM_TINY",
     "gs://vertex-rlhf-restricted/pretrained_models/palm/t5x_palm_tiny/",
     "PALM_TINY",
     "gs://vertex-rlhf-restricted/pretrained_models/palm/t5x_palm_tiny/", false⟩),
   ("gecko", ⟨"GECKO",
     "gs://vertex-rlhf-restricted/pretrained_models/palm/t5x_gecko/",
     "GECKO",
     "gs://vertex-rlhf-restricted/pretrained_models/palm/t5x_gecko_pretrain/", false⟩),
   ("otter", ⟨"OTTER",
     "gs://vertex-rlhf-restricted/pretrained_models/palm/t5x_otter/",
     "OTTER",
     "gs://vertex-rlhf-restricted/pretrained_models/palm/t5x_otter_pretrain/", false⟩),
   ("bison", ⟨"BISON",
     "gs://vertex-rlhf-restricted/pretrained_models/palm/t5x_bison/",
     "OTTER",
     "gs://vertex-rlhf-restricted/pretrained_models/palm/t5x_otter_pretrain/", false⟩),
   ("text-bison@001", ⟨"BISON",
     "gs://vertex-rlhf-restricted/pretrained_models/palm/t5x_bison/",
     "OTTER",
     "gs://vertex-rlhf-restricted/pretrained_models/palm/t5x_otter_pretrain/", true⟩),
   ("chat-bison@001", ⟨"BISON",
     "gs://vertex-rlhf-restricted/pretrained_models/palm/t5x_bison/",
     "OTTER",
     "gs://vertex-rlhf-restricted/pretrained_models/palm/t5x_otter_pretrain/", true⟩),
   ("elephant", ⟨"ELEPHANT",
     "gs://vertex-rlhf-restricted/pretrained_models/palm/t5x_elephant/",
     "OTTER",
     "gs://vertex-rlhf-restricted/pretrained_models/palm/t5x_otter_pretrain/", false⟩),
   ("llama-2-7b", ⟨"LLAMA_2_7B",
     "gs://vertex-rlhf-restricted/pretrained_models/llama/t5x_llama_2_7b/",
     "LLAMA_2_7B",
     "gs://vertex-rlhf-restricted/pretrained_models/llama/t5x_llama_2_7b/", true⟩),
   ("llama-2-13b", ⟨"LLAMA_2_13B",
     "gs://vertex-rlhf-restricted/pretrained_models/llama/t5x_llama_2_13b/",
     "LLAMA_2_13B",
     "gs://vertex-rlhf-restricted/pretrained_models/llama/t5x_llama_2_13b/", true⟩),
   ("llama-2-7b-chat", ⟨"LLAMA_2_7B_CHAT",
     "gs://vertex-rlhf-restricted/pretrained_models/llama/t5x_llama_2_7b_chat/",
     "LLAMA_2_7B",
     "gs://vertex-rlhf-restricted/pretrained_models/llama/t5x_llama_2_7b/", true⟩),
   ("llama-2-13b-chat", ⟨"LLAMA_2_13B_CHAT",
     "gs://vertex-rlhf-restricted/pretrained_models/llama/t5x_llama_2_13b_chat/",
     "LLAMA_2_13B",
     "gs://vertex-rlhf-restricted/pretrained_models/llama/t5x_llama_2_13b/", true⟩)]

/-- The keys of the registry entries flagged `is_supported`, in registry
order, as the list comprehension in `resolve_reference_model_metadata`
builds them. -/
def supported_models : List String :=
  (reference_models.filter (fun kv => kv.2.is_supported)).map (fun kv => kv.1)

/-- `resolve_reference_model_metadata(large_model_reference,
reference_model_path)`: normalize the key, look it up, on miss raise listing
the sorted supported keys, on hit return the entry with the path overridden
when the override is truthy (`x or y`). -/
def resolve_reference_model_metadata (large_model_reference : String)
    (reference_model_path : Option String) : Except String ReferenceModelOutputs :=
  let reference_model_key := pyReplaceUnderscore (pyLower large_model_reference)
  match reference_models.lookup reference_model_key with
  | none =>
      .error ("Unknown reference model " ++ large_model_reference ++
        ". large_model_reference must be one of " ++
        pyListRepr (pySorted supported_models) ++ ".")
  | some reference_model =>
      .ok ⟨reference_model.large_model_reference,
        pyOrElse reference_model_path reference_model.reference_model_path,
        reference_model.reward_model_reference,
        reference_model.reward_model_path⟩

/-- `resolve_instruction(large_model_reference, instruction)`: Python first
replaces a falsy instruction by the empty string (`instruction or CHARS_EMPTY`),
then suppresses it entirely when the lower-cased model reference contains
`chat`. -/
def resolve_instruction (large_model_reference : String)
    (instruction : Option String) : String :=
  if containsSub "chat".toList (pyLower large_model_reference).toList then ""
  else instruction.getD ""

/-- `resolve_upload_location(upload_location)`.  The source falls back to
`os.environ` at call time when the argument is falsy; the ambient environment
value is the explicit parameter `cloud_ml_region` here. -/
def resolve_upload_location (upload_location : Option String)
    (cloud_ml_region : String) : String :=
  pyOrElse upload_location cloud_ml_region

/-- `resolve_model_display_name(large_model_reference, model_display_name)`.
The source reads the current time when the display name is falsy; the
formatted timestamp is the explicit parameter `now` here. -/
def resolve_model_display_name (large_model_reference : String)
    (model_display_name : Option String) (now : String) : String :=
  pyOrElse model_display_name (pyLower large_model_reference ++ "-" ++ now)

/-- Claim C2: the test-spec flag takes precedence and always yields the fixed
test spec; otherwise europe-west4 yields the TPU spec, us-central1 the 8-GPU
spec, and any other location the unsupported-location error. -/
theorem C2_resolve_machine_spec (location : String) (e : List String) :
    resolve_machine_spec location true e =
      .ok ⟨"a2-highgpu-1g", "NVIDIA_TESLA_A100", 1⟩ ∧
    (location = "europe-west4" →
      resolve_machine_spec location false e = .ok ⟨"cloud-tpu", "TPU_V3", 64⟩) ∧
    (location = "us-central1" →
      resolve_machine_spec location false e =
        .ok ⟨"a2-ultragpu-8g", "NVIDIA_A100_80GB", 8⟩) ∧
    (location ≠ "europe-west4" → location ≠ "us-central1" →
      resolve_machine_spec location false e =
        .error (unsupportedLocationMsg location e)) := by
  refine ⟨rfl, ?_, ?_, ?_⟩
  · intro h; subst h; rfl
  · intro h; subst h; rfl
  · intro h1 h2
    simp [resolve_machine_spec, tpu_regions, gpu_regions, h1, h2]

/-- Closed witness for C2's conditional branches at concrete locations. -/
theorem C2_resolve_machine_spec_witness :
    resolve_machine_spec "europe-west4" false ["europe-west4", "us-central1"] =
      .ok ⟨"cloud-tpu", "TPU_V3", 64⟩ ∧
    resolve_machine_spec "us-central1" false ["europe-west4", "us-central1"] =
      .ok ⟨"a2-ultragpu-8g", "NVIDIA_A100_80GB", 8⟩ ∧
    resolve_machine_spec "narnia" false ["europe-west4", "us-central1"] =
      .error (unsupportedLocationMsg "narnia" ["europe-west4", "us-central1"]) :=
  ⟨(C2_resolve_machine_spec "europe-west4" ["europe-west4", "us-central1"]).2.1 rfl,
   (C2_resolve_machine_spec "us-central1" ["europe-west4", "us-central1"]).2.2.1 rfl,
   (C2_resolve_machine_spec "narnia" ["europe-west4", "us-central1"]).2.2.2
     (by decide) (by decide)⟩

/-- Claim C5 counterexample: CPython may iterate the region set as
`us-central1, europe-west4` (a valid enumeration of the set), which is not
sorted, and the resulting error differs from the one produced under the other
iteration order — so the message is neither sorted nor deterministic. -/
theorem C5_counterexample :
    regionEnumOk ["us-central1", "europe-west4"] ∧
    pySorted ["us-central1", "europe-west4"] ≠ ["us-central1", "europe-west4"] ∧
    resolve_machine_spec "narnia" false ["us-central1", "europe-west4"] ≠
      resolve_machine_spec "narnia" false ["europe-west4", "us-central1"] := by
  refine ⟨by decide, by decide, by decide⟩

/-- Claim C5 as amended: for a location in neither region set (with
`use_test_spec` false) the error message names the offending location and
interpolates the region set in whatever iteration order CPython uses — an
order that always enumerates exactly the two accepted regions, but is not
guaranteed to be sorted or deterministic. -/
theorem C5_unsupported_location_message (location : String) (e : List String)
    (h1 : location ≠ "europe-west4") (h2 : location ≠ "us-central1")
    (he : regionEnumOk e) :
    resolve_machine_spec location false e =
      .error ("Unsupported accelerator location " ++ location ++
        ". Must be one of " ++ pySetRepr e ++ ".") ∧
    "europe-west4" ∈ e ∧ "us-central1" ∈ e ∧ e.length = 2 := by
  refine ⟨?_, ?_, ?_, ?_⟩
  · simp [resolve_machine_spec, tpu_regions, gpu_regions, h1, h2, unsupportedLocationMsg]
  · exact he.mem_iff.2 (by decide)
  · exact he.mem_iff.2 (by decide)
  · simpa using he.length_eq

/-- Claim C1: the machine-type tiering of the bulk inference resolver is exact:
counts below 1 fail; TPU families always map to `cloud-tpu`; the 40GB and 80GB
ladders map each count band to its tier and overflow to the too-many error;
unknown accelerator types fail listing the sorted valid set. -/
theorem C1_machine_type_tiering (t : String) (c : Int) :
    (c < 1 → _get_machine_type t c = .error "accelerator_count must be at least 1.") ∧
    (1 ≤ c → t ∈ tpu_accelerator_types → _get_machine_type t c = .ok cloud_tpu) ∧
    (t = nvidia_a100_40g →
      (c = 1 → _get_machine_type t c = .ok high_gpu_1g) ∧
      (c = 2 → _get_machine_type t c = .ok high_gpu_2g) ∧
      (3 ≤ c → c ≤ 4 → _get_machine_type t c = .ok high_gpu_4g) ∧
      (5 ≤ c → c ≤ 8 → _get_machine_type t c = .ok high_gpu_8g) ∧
      (9 ≤ c → c ≤ 16 → _get_machine_type t c = .ok mega_gpu_16g) ∧
      (16 < c → _get_machine_type t c =
        .error ("Too many " ++ t ++ " requested. Must be <= 16."))) ∧
    (t = nvidia_a100_80g →
      (c = 1 → _get_machine_type t c = .ok ultra_gpu_1g) ∧
      (c = 2 → _get_machine_type t c = .ok ultra_gpu_2g) ∧
      (3 ≤ c → c ≤ 4 → _get_machine_type t c = .ok ultra_gpu_4g) ∧
      (5 ≤ c → c ≤ 8 → _get_machine_type t c = .ok ultra_gpu_8g) ∧
      (8 < c → _get_machine_type t c =
        .error ("Too many " ++ t ++ " requested. Must be <= 8."))) ∧
    (1 ≤ c → t ∉ valid_accelerator_types →
      _get_machine_type t c = .error ("accelerator_type_override must be one of " ++
        pyListRepr (pySorted valid_accelerator_types) ++ ".")) := by
  refine ⟨?_, ?_, ?_, ?_, ?_⟩
  · intro hc
    unfold _get_machine_type
    rw [if_pos hc]
  · intro hc ht
    unfold _get_machine_type
    rw [if_neg (by omega), if_pos ht]
  · intro ht; subst ht
    refine ⟨?_, ?_, ?_, ?_, ?_, ?_⟩
    · intro hc; subst hc; decide
    · intro hc; subst hc; decide
    · intro h3 h4
      unfold _get_machine_type
      rw [if_neg (by omega), if_neg (by decide), if_pos rfl, if_neg (by omega),
        if_neg (by omega), if_pos h4]
    · intro h5 h8
      unfold _get_machine_type
      rw [if_neg (by omega), if_neg (by decide), if_pos rfl, if_neg (by omega),
        if_neg (by omega), if_neg (by omega), if_pos h8]
    · intro h9 h16
      unfold _get_machine_type
      rw [if_neg (by omega), if_neg (by decide), if_pos rfl, if_neg (by omega),
        if_neg (by omega), if_neg (by omega), if_neg (by omega), if_pos h16]
    · intro h17
      unfold _get_machine_type
      rw [if_neg (by omega), if_neg (by decide), if_pos rfl, if_neg (by omega),
        if_neg (by omega), if_neg (by omega), if_neg (by omega), if_neg (by omega)]
  · intro ht; subst ht
    refine ⟨?_, ?_, ?_, ?_, ?_⟩
    · intro hc; subst hc; decide
    · intro hc; subst hc; decide
    · intro h3 h4
      unfold _get_machine_type
      rw [if_neg (by omega), if_neg (by decide), if_neg (by decide), if_pos rfl,
        if_neg (by omega), if_neg (by omega), if_pos h4]
    · intro h5 h8
      unfold _get_machine_type
      rw [if_neg (by omega), if_neg (by decide), if_neg (by decide), if_pos rfl,
        if_neg (by omega), if_neg (by omega), if_neg (by omega), if_pos h8]
    · intro h9
      unfold _get_machine_type
      rw [if_neg (by omega), if_neg (by decide), if_neg (by decide), if_pos rfl,
        if_neg (by omega), if_neg (by omega), if_neg (by omega), if_neg (by omega)]
  · intro hc ht
    unfold _get_machine_type
    have h1 : t ∉ tpu_accelerator_types := fun h => ht (by
      simp [valid_accelerator_types, tpu_accelerator_types] at h ⊢
      tauto)
    have h2 : t ≠ nvidia_a100_40g := fun h => ht (by
      simp [valid_accelerator_types, gpu_accelerator_types]
      tauto)
    have h3 : t ≠ nvidia_a100_80g := fun h => ht (by
      simp [valid_accelerator_types, gpu_accelerator_types]
      tauto)
    rw [if_neg (by omega), if_neg h1, if_neg h2, if_neg h3]

/-- Closed witness for C1 at the spec's boundary examples and an unknown type. -/
theorem C1_machine_type_tiering_witness :
    _get_machine_type "NVIDIA_TESLA_A100" 4 = .ok high_gpu_4g ∧
    _get_machine_type "NVIDIA_TESLA_A100" 5 = .ok high_gpu_8g ∧
    _get_machine_type "NVIDIA_TESLA_A100" 17 =
      .error "Too many NVIDIA_TESLA_A100 requested. Must be <= 16." ∧
    _get_machine_type "TPU_V3" 999 = .ok cloud_tpu ∧
    _get_machine_type "NVIDIA_A100_80GB" 9 =
      .error "Too many NVIDIA_A100_80GB requested. Must be <= 8." ∧
    _get_machine_type "NVIDIA_H100_80GB" 1 =
      .error ("accelerator_type_override must be one of " ++
        pyListRepr (pySorted valid_accelerator_types) ++ ".") ∧
    _get_machine_type "TPU_V3" 0 = .error "accelerator_count must be at least 1." :=
  ⟨((C1_machine_type_tiering "NVIDIA_TESLA_A100" 4).2.2.1 rfl).2.2.1 (by decide) (by decide),
   ((C1_machine_type_tiering "NVIDIA_TESLA_A100" 5).2.2.1 rfl).2.2.2.1 (by decide) (by decide),
   ((C1_machine_type_tiering "NVIDIA_TESLA_A100" 17).2.2.1 rfl).2.2.2.2.2 (by decide),
   (C1_machine_type_tiering "TPU_V3" 999).2.1 (by decide) (by decide),
   ((C1_machine_type_tiering "NVIDIA_A100_80GB" 9).2.2.2.1 rfl).2.2.2.2 (by decide),
   (C1_machine_type_tiering "NVIDIA_H100_80GB" 1).2.2.2.2 (by decide) (by decide),
   (C1_machine_type_tiering "TPU_V3" 0).1 (by decide)⟩

/-- Every accepted model has a GPU-defaults entry, so the table index in
`get_default_bulk_inference_machine_specs` cannot miss. -/
theorem gpu_defaults_cover (m : String) (hm : m ∈ accepted_reference_models) :
    ∃ s, reference_model_to_model_specs_gpu.lookup m = some s := by
  simp only [accepted_reference_models, List.mem_cons, List.not_mem_nil, or_false] at hm
  rcases hm with rfl | rfl | rfl | rfl | rfl | rfl | rfl | rfl | rfl <;> exact ⟨_, rfl⟩

/-- Claim C3: the accelerator overrides are all-or-nothing: for every supported
model, a truthy override of one kind without a truthy override of the other
fails with the invalid-override error, and supplying both fully replaces the
default pair — the result is exactly the tiering of the override pair,
independent of the model and of `use_gpu_defaults`. -/
theorem C3_override_all_or_nothing (m : String) (g : Bool)
    (hm : m ∈ accepted_reference_models) :
    (∀ ovT : Option String, ∀ ovC : Option Int,
      (pyTruthyStr ovT = true ∧ pyTruthyInt ovC = false) ∨
        (pyTruthyStr ovT = false ∧ pyTruthyInt ovC = true) →
      get_default_bulk_inference_machine_specs m g ovT ovC =
        .error "Accelerator type and count must both be set.") ∧
    (∀ t : String, ∀ c : Int, t ≠ "" → c ≠ 0 →
      get_default_bulk_inference_machine_specs m g (some t) (some c) =
        match _get_machine_type t c with
        | .error msg => .error msg
        | .ok mt => .ok ⟨mt, t, c⟩) := by
  constructor
  · intro ovT ovC h
    rcases h with ⟨h1, h2⟩ | ⟨h1, h2⟩ <;>
      simp [get_default_bulk_inference_machine_specs, hm, h1, h2]
  · intro t c ht hc
    simp [get_default_bulk_inference_machine_specs, hm, pyTruthyStr, pyTruthyInt, ht, hc]

/-- Closed witness for C3: one partial override fails; a full override pair
replaces the BISON GPU default (40GB x 8) with the 80GB x 2 tier. -/
theorem C3_override_all_or_nothing_witness :
    get_default_bulk_inference_machine_specs "BISON" false (some "TPU_V2") none =
      .error "Accelerator type and count must both be set." ∧
    get_default_bulk_inference_machine_specs "BISON" true
        (some "NVIDIA_A100_80GB") (some 2) =
      .ok ⟨ultra_gpu_2g, "NVIDIA_A100_80GB", 2⟩ :=
  ⟨(C3_override_all_or_nothing "BISON" false (by decide)).1 (some "TPU_V2") none
      (Or.inl ⟨by decide, by decide⟩),
   ((C3_override_all_or_nothing "BISON" true (by decide)).2 "NVIDIA_A100_80GB" 2
      (by decide) (by decide)).trans (by decide)⟩

/-- Claim C10: override presence is decided by Python truthiness, not by
argument presence: a lone count override of 0 and a lone empty-string type
override are both treated as absent (defaults are returned, successfully),
while a truthy type override paired with count 0 fails with the
both-must-be-set error rather than the count-validation error. -/
theorem C10_override_truthiness (m : String) (g : Bool)
    (hm : m ∈ accepted_reference_models) :
    get_default_bulk_inference_machine_specs m g none (some 0) =
      get_default_bulk_inference_machine_specs m g none none ∧
    get_default_bulk_inference_machine_specs m g (some "") none =
      get_default_bulk_inference_machine_specs m g none none ∧
    (∃ s : MachineSpec,
      get_default_bulk_inference_machine_specs m g none none = .ok s) ∧
    (∀ t : String, t ≠ "" →
      get_default_bulk_inference_machine_specs m g (some t) (some 0) =
        .error "Accelerator type and count must both be set.") := by
  refine ⟨?_, ?_, ?_, ?_⟩
  · simp [get_default_bulk_inference_machine_specs, hm, pyTruthyStr, pyTruthyInt]
  · simp [get_default_bulk_inference_machine_specs, hm, pyTruthyStr, pyTruthyInt]
  · simp only [accepted_reference_models, List.mem_cons, List.not_mem_nil, or_false] at hm
    rcases hm with rfl | rfl | rfl | rfl | rfl | rfl | rfl | rfl | rfl <;>
      cases g <;> exact ⟨_, rfl⟩
  · intro t ht
    simp [get_default_bulk_inference_machine_specs, hm, pyTruthyStr, pyTruthyInt, ht]

/-- Closed witness for C10 at BISON with GPU defaults: a lone zero count
override yields the default 8 x 40GB spec without error, and a truthy type
override with count 0 yields the both-must-be-set error. -/
theorem C10_override_truthiness_witness :
    get_default_bulk_inference_machine_specs "BISON" true none (some 0) =
      get_default_bulk_inference_machine_specs "BISON" true none none ∧
    get_default_bulk_inference_machine_specs "BISON" true (some "") none =
      get_default_bulk_inference_machine_specs "BISON" true none none ∧
    get_default_bulk_inference_machine_specs "BISON" true none none =
      .ok ⟨high_gpu_8g, nvidia_a100_40g, 8⟩ ∧
    get_default_bulk_inference_machine_specs "BISON" true
        (some "NVIDIA_TESLA_A100") (some 0) =
      .error "Accelerator type and count must both be set." :=
  ⟨(C10_override_truthiness "BISON" true (by decide)).1,
   (C10_override_truthiness "BISON" true (by decide)).2.1,
   by decide,
   (C10_override_truthiness "BISON" true (by decide)).2.2.2 "NVIDIA_TESLA_A100"
     (by decide)⟩

/-- Claim C4: `resolve_image_uri` is pure string composition: the URI is the
fixed registry format with the suffix derived exactly as the spec orders it
(CPU-only, TPU, GPU-test, GPU, then `_backup` except in the GPU-test case);
the spec's own examples for `sft` are included. -/
theorem C4_image_uri_composition (image_name project location artifact_registry : String)
    ( image_name_prefix : String) (tag accelerator_type : String)
    (accelerator_count : Int) :
    resolve_image_uri image_name project location artifact_registry
        image_name_prefix tag accelerator_type accelerator_count =
      location ++ "-docker.pkg.dev/" ++ project ++ "/" ++ artifact_registry ++ "/" ++
        image_name_prefix ++ image_name ++
        suffix_per_spec image_name accelerator_type accelerator_count ++ ":" ++ tag ∧
    resolve_image_uri "sft" "p" "loc" "reg" "pre-" "v1" "TPU_V3" 0 =
      "loc-docker.pkg.dev/p/reg/pre-sft_tpu_backup:v1" ∧
    resolve_image_uri "sft" "p" "loc" "reg" "pre-" "v1" "NVIDIA_A100_80GB" 8 =
      "loc-docker.pkg.dev/p/reg/pre-sft_gpu_test:v1" :=
  ⟨rfl, by decide, by decide⟩

/-- Claim C6: registry entries flagged unsupported (palm-tiny, bison, otter)
are still returned on an exact normalized-key match; only the suggestion list
in the unknown-model error is filtered to the sorted supported keys. -/
theorem C6_unsupported_reachable_by_key :
    resolve_reference_model_metadata "palm-tiny" none =
      .ok ⟨"PALM_TINY",
        "gs://vertex-rlhf-restricted/pretrained_models/palm/t5x_palm_tiny/",
        "PALM_TINY",
        "gs://vertex-rlhf-restricted/pretrained_models/palm/t5x_palm_tiny/"⟩ ∧
    resolve_reference_model_metadata "bison" none =
      .ok ⟨"BISON",
        "gs://vertex-rlhf-restricted/pretrained_models/palm/t5x_bison/",
        "OTTER",
        "gs://vertex-rlhf-restricted/pretrained_models/palm/t5x_otter_pretrain/"⟩ ∧
    resolve_reference_model_metadata "otter" none =
      .ok ⟨"OTTER",
        "gs://vertex-rlhf-restricted/pretrained_models/palm/t5x_otter/",
        "OTTER",
        "gs://vertex-rlhf-restricted/pretrained_models/palm/t5x_otter_pretrain/"⟩ ∧
    ((reference_models.lookup "palm-tiny").map ReferenceModelMetadata.is_supported =
      some false) ∧
    ((reference_models.lookup "bison").map ReferenceModelMetadata.is_supported =
      some false) ∧
    ((reference_models.lookup "otter").map ReferenceModelMetadata.is_supported =
      some false) ∧
    (∀ k : String,
      reference_models.lookup (pyReplaceUnderscore (pyLower k)) = none →
      resolve_reference_model_metadata k none =
        .error ("Unknown reference model " ++ k ++
          ". large_model_reference must be one of " ++
          pyListRepr (pySorted supported_models) ++ ".")) ∧
    pySorted supported_models =
      ["chat-bison@001", "llama-2-13b", "llama-2-13b-chat", "llama-2-7b",
       "llama-2-7b-chat", "t5-large", "t5-small", "t5-xl", "t5-xxl",
       "text-bison@001"] := by
  refine ⟨by decide, by decide, by decide, by decide, by decide, by decide, ?_, by decide⟩
  intro k hk
  simp [resolve_reference_model_metadata, hk]

/-- Closed witness for C6's miss branch at an unknown key. -/
theorem C6_unsupported_reachable_by_key_witness :
    resolve_reference_model_metadata "palm-giant" none =
      .error ("Unknown reference model " ++ "palm-giant" ++
        ". large_model_reference must be one of " ++
        pyListRepr (pySorted supported_models) ++ ".") :=
  C6_unsupported_reachable_by_key.2.2.2.2.2.2.1 "palm-giant" (by decide)

/-- Claim C7: the lookup key is the lower-cased, underscore-to-hyphen
normalization; on a hit the entry is returned with the path replaced exactly
when the override is non-empty; `LLAMA_2_7B_CHAT` resolves to reward reference
`LLAMA_2_7B` with the base model's reward path (the many-to-one sharing). -/
theorem C7_normalize_and_override (k : String) (ov : Option String) :
    pyReplaceUnderscore (pyLower "LLAMA_2_7B_CHAT") = "llama-2-7b-chat" ∧
    (∀ entry : ReferenceModelMetadata,
      reference_models.lookup (pyReplaceUnderscore (pyLower k)) = some entry →
      resolve_reference_model_metadata k ov =
        .ok ⟨entry.large_model_reference,
          (if pyTruthyStr ov then ov.getD "" else entry.reference_model_path),
          entry.reward_model_reference, entry.reward_model_path⟩) ∧
    resolve_reference_model_metadata "LLAMA_2_7B_CHAT" none =
      .ok ⟨"LLAMA_2_7B_CHAT",
        "gs://vertex-rlhf-restricted/pretrained_models/llama/t5x_llama_2_7b_chat/",
        "LLAMA_2_7B",
        "gs://vertex-rlhf-restricted/pretrained_models/llama/t5x_llama_2_7b/"⟩ ∧
    ((reference_models.lookup "llama-2-7b").map
        ReferenceModelMetadata.reward_model_path =
      some "gs://vertex-rlhf-restricted/pretrained_models/llama/t5x_llama_2_7b/") := by
  refine ⟨by decide, ?_, by decide, by decide⟩
  intro entry he
  simp [resolve_reference_model_metadata, he, pyOrElse]

/-- Closed witness for C7's hit branch with a non-empty path override. -/
theorem C7_normalize_and_override_witness :
    resolve_reference_model_metadata "T5_SMALL" (some "gs://tuned/base/") =
      .ok ⟨"T5_SMALL", "gs://tuned/base/", "T5_SMALL",
        "gs://t5-data/pretrained_models/t5x/t5_1_1_small"⟩ :=
  ((C7_normalize_and_override "T5_SMALL" (some "gs://tuned/base/")).2.1
    ⟨"T5_SMALL", "gs://t5-data/pretrained_models/t5x/flan_t5_small/", "T5_SMALL",
      "gs://t5-data/pretrained_models/t5x/t5_1_1_small", true⟩ (by decide)).trans
    (by decide)

/-- Claim C8: `resolve_instruction` returns the empty string exactly when the
lower-cased model reference contains `chat`, and otherwise the (possibly
empty, defaulted) instruction unchanged. -/
theorem C8_instruction_suppression (ref : String) (instruction : Option String) :
    (containsSub "chat".toList (pyLower ref).toList = true →
      resolve_instruction ref instruction = "") ∧
    (containsSub "chat".toList (pyLower ref).toList = false →
      resolve_instruction ref instruction = instruction.getD "") := by
  constructor
  · intro h
    unfold resolve_instruction
    rw [h]
    simp
  · intro h
    unfold resolve_instruction
    rw [h]
    simp

/-- Closed witness for C8 at the spec's two examples. -/
theorem C8_instruction_suppression_witness :
    resolve_instruction "chat-bison@001" (some "Be terse") = "" ∧
    resolve_instruction "BISON" (some "Be terse") = "Be terse" :=
  ⟨(C8_instruction_suppression "chat-bison@001" (some "Be terse")).1 (by decide),
   ((C8_instruction_suppression "BISON" (some "Be terse")).2 (by decide)).trans
     (by decide)⟩

/-- Claim C9 counterexample: `resolve_upload_location` is a second resolver
whose output depends on hidden process state — with the identical explicit
input (no location supplied) it returns whatever the ambient environment value
is at call time — so the display-name generator is not the sole exception to
input-determinism. -/
theorem C9_counterexample :
    resolve_upload_location none "us-central1" ≠
      resolve_upload_location none "europe-west4" := by decide

/-- Claim C9 as amended: every embedded resolver is a pure function of its
explicit inputs, except that `resolve_model_display_name` additionally reads
the current time and `resolve_upload_location` additionally reads the
environment; both ignore that hidden state whenever their optional argument is
truthy, the display-name fallback matches the fixed format
reference-dash-timestamp, and the upload-location fallback is exactly the
ambient environment value. -/
theorem C9_determinism_amended :
    (∀ loc : Option String, ∀ env1 env2 : String, pyTruthyStr loc = true →
      resolve_upload_location loc env1 = resolve_upload_location loc env2) ∧
    (∀ loc : Option String, ∀ env1 : String, pyTruthyStr loc = false →
      resolve_upload_location loc env1 = env1) ∧
    (∀ ref : String, ∀ nm : Option String, ∀ t1 t2 : String, pyTruthyStr nm = true →
      resolve_model_display_name ref nm t1 = resolve_model_display_name ref nm t2) ∧
    (∀ ref t1, resolve_model_display_name ref none t1 = pyLower ref ++ "-" ++ t1) := by
  refine ⟨?_, ?_, ?_, ?_⟩
  · intro loc env1 env2 h
    simp [resolve_upload_location, pyOrElse, h]
  · intro loc env1 h
    simp [resolve_upload_location, pyOrElse, h]
  · intro ref nm t1 t2 h
    simp [resolve_model_display_name, pyOrElse, h]
  · intro ref t1
    simp [resolve_model_display_name, pyOrElse, pyTruthyStr]

/-- Closed witness for C9's amended statement at concrete inputs. -/
theorem C9_determinism_amended_witness :
    resolve_upload_location (some "us-east1") "us-central1" =
      resolve_upload_location (some "us-east1") "europe-west4" ∧
    resolve_upload_location none "us-central1" = "us-central1" ∧
    resolve_model_display_name "BISON" (some "my-model") "2024-01-01-00-00-00" =
      resolve_model_display_name "BISON" (some "my-model") "2025-02-02-00-00-00" ∧
    resolve_model_display_name "BISON" none "2024-01-01-00-00-00" =
      "bison-2024-01-01-00-00-00" :=
  ⟨C9_determinism_amended.1 (some "us-east1") "us-central1" "europe-west4" (by decide),
   C9_determinism_amended.2.1 none "us-central1" (by decide),
   C9_determinism_amended.2.2.1 "BISON" (some "my-model") "2024-01-01-00-00-00"
     "2025-02-02-00-00-00" (by decide),
   (C9_determinism_amended.2.2.2 "BISON" "2024-01-01-00-00-00").trans (by decide)⟩

/-- Closed witness for C5's amended statement at a concrete unsupported
location under one valid set-iteration order. -/
theorem C5_unsupported_location_message_witness :
    resolve_machine_spec "narnia" false ["europe-west4", "us-central1"] =
      .error ("Unsupported accelerator location " ++ "narnia" ++
        ". Must be one of " ++ pySetRepr ["europe-west4", "us-central1"] ++ ".") ∧
    "europe-west4" ∈ (["europe-west4", "us-central1"] : List String) ∧
    "us-central1" ∈ (["europe-west4", "us-central1"] : List String) ∧
    (["europe-west4", "us-central1"] : List String).length = 2 :=
  C5_unsupported_location_message "narnia" ["europe-west4", "us-central1"]
    (by decide) (by decide) (by decide)
